import Mathlib

/-!
Shallow embedding of the scenario-generation pipeline of scenarioFromOSM.py:
the XML element model used by its Artifact Merger and Config Rewriter, the
argument vectors it builds for its external collaborators, and the ordered
event trace of its main function.
-/

set_option linter.unusedVariables false
set_option linter.unnecessarySeqFocus false

/-! ## XML element model (xml.etree.ElementTree as used by the script) -/

mutual

inductive Element : Type where
  | mk (tag : String) (attrib : List (String × String)) (children : ElementList) : Element

inductive ElementList : Type where
  | nil : ElementList
  | cons (head : Element) (tail : ElementList) : ElementList

end

def Element.tag : Element → String
  | .mk t _ _ => t

def Element.attrib : Element → List (String × String)
  | .mk _ a _ => a

def Element.children : Element → ElementList
  | .mk _ _ c => c

def ElementList.length : ElementList → Nat
  | .nil => 0
  | .cons _ es => 1 + es.length

def ElementList.append : ElementList → ElementList → ElementList
  | .nil, ys => ys
  | .cons x xs, ys => .cons x (xs.append ys)

def ElementList.toList : ElementList → List Element
  | .nil => []
  | .cons e es => e :: es.toList

/-- Python dict assignment on an attribute map kept as an association list:
replace the first binding of the key in place, or append a new binding. -/
def dictSet (a : List (String × String)) (k v : String) : List (String × String) :=
  match a with
  | [] => [(k, v)]
  | (k2, v2) :: rest => if k2 == k then (k, v) :: rest else (k2, v2) :: dictSet rest k v

def lookupKey (k : String) : List (String × String) → Option String
  | [] => none
  | (k2, v2) :: rest => if k2 == k then some v2 else lookupKey k rest

def eraseKey (k : String) (a : List (String × String)) : List (String × String) :=
  a.filter (fun p => !(p.1 == k))

mutual

/-- Mirrors the loop over xml_tree.iter(tag) that assigns attrib of key "value"
on every element of the given tag, at any depth, root included. -/
def setAll (tag v : String) : Element → Element
  | .mk t a c => .mk t (if t == tag then dictSet a "value" v else a) (setAllL tag v c)

def setAllL (tag v : String) : ElementList → ElementList
  | .nil => .nil
  | .cons e es => .cons (setAll tag v e) (setAllL tag v es)

end

mutual

/-- Number of elements (root included, any depth) carrying the given tag. -/
def countTag (tag : String) : Element → Nat
  | .mk t _ c => (if t == tag then 1 else 0) + countTagL tag c

def countTagL (tag : String) : ElementList → Nat
  | .nil => 0
  | .cons e es => countTag tag e + countTagL tag es

end

mutual

/-- Preorder list of the (tag, attrib) pairs of every node of the tree. -/
def nodes : Element → List (String × List (String × String))
  | .mk t a c => (t, a) :: nodesL c

def nodesL : ElementList → List (String × List (String × String))
  | .nil => []
  | .cons e es => nodes e ++ nodesL es

end

/-- How setAll acts on a single (tag, attrib) node entry. -/
def stepFn (tag v : String) (p : String × List (String × String)) :
    String × List (String × String) :=
  if p.1 == tag then (p.1, dictSet p.2 "value" v) else p

/-- Number of positions at which two same-shaped trees carry a different
(tag, attrib) pair. -/
def countDiff (e e2 : Element) : Nat :=
  ((nodes e).zip (nodes e2)).countP (fun q => !(decide (q.1 = q.2)))

mutual

/-- Every node of the given tag carries the attribute "value" with value v. -/
def allTagValue (tag v : String) : Element → Bool
  | .mk t a c =>
      (if t == tag then decide (lookupKey "value" a = some v) else true)
        && allTagValueL tag v c

def allTagValueL (tag v : String) : ElementList → Bool
  | .nil => true
  | .cons e es => allTagValue tag v e && allTagValueL tag v es

end

mutual

/-- The two trees have the same shape and the same tags everywhere; at nodes
of other tags the attributes agree exactly, and at nodes of the given tag
they agree outside the key "value". -/
def othersPreserved (tag : String) : Element → Element → Bool
  | .mk t a c, .mk t2 a2 c2 =>
      (t == t2)
        && (if t == tag then decide (eraseKey "value" a = eraseKey "value" a2)
            else decide (a = a2))
        && othersPreservedL tag c c2

def othersPreservedL (tag : String) : ElementList → ElementList → Bool
  | .nil, .nil => true
  | .cons e es, .cons f fs => othersPreserved tag e f && othersPreservedL tag es fs
  | _, _ => false

end

/-! ## String helpers (Python substring and strip semantics) -/

def leadMatch : List Char → List Char → Bool
  | [], _ => true
  | _ :: _, [] => false
  | c :: cs, d :: ds => c == d && leadMatch cs ds

def containsCL (pat : List Char) : List Char → Bool
  | [] => leadMatch pat []
  | d :: ds => leadMatch pat (d :: ds) || containsCL pat ds

/-- Python membership test: pat in s, i.e. pat occurs somewhere inside s. -/
def hasSubstr (s pat : String) : Bool :=
  containsCL pat.data s.data

/-- True when pat occurs at the very end of s. -/
def tailMatch (s pat : String) : Bool :=
  leadMatch pat.data.reverse s.data.reverse

/-- Python str.strip(c): remove every leading and trailing occurrence of c. -/
def stripBoth (c : Char) (s : String) : String :=
  ⟨((s.data.dropWhile (fun d => d == c)).reverse.dropWhile (fun d => d == c)).reverse⟩

/-! ## Fixed artifact names of the pipeline -/

def DEFAULT_NETCONVERT : String := "osm.netccfg"
def DEFAULT_NET_XML : String := "osm.net.xml"
def DEFAULT_PT_STOPS_XML : String := "osm_stops.add.xml"
def DEFAULT_PT_LINES : String := "osm_ptlines.xml"
def DEFAULT_SIDE_PARKING_XML : String := "osm_parking.xml"
def DEFAULT_PT_FLOWS : String := "osm_pt.rou.xml"
def DEFAULT_PARKING_AREAS : String := "osm_parking_areas.add.xml"
def DEFAULT_COMPLETE_PARKING_XML : String := "osm_complete_parking_areas.add.xml"
def DEFAULT_PARKING_REROUTERS_XML : String := "osm_parking_rerouters.add.xml"
def DEFAULT_POLY_XML : String := "osm_polygons.add.xml"
def DEFAULT_TAZ_OUTPUT_XML : String := "osm_taz.xml"
def DEFAULT_OD_OUTPUT_CSV : String := "osm_taz_weight.csv"
def DEFAULT_BUILDINGS_PREFIX : String := "buildings/osm_buildings"
def DEFAULT_ODMATRIX_AMITRAN_XML : String := "osm_odmatrix_amitran.xml"
def DEAFULT_GENERIC_AG_CONG : String := "activitygen.json"
def DEAFULT_SPECIFIC_AG_CONG : String := "osm_activitygen.json"
def DEFAULT_SUMOCFG : String := "osm.sumocfg"

/-! ## Config Rewriter (add_rou_to_default_sumocfg) -/

def isRouteName (item : String) : Bool :=
  hasSubstr item ".rou.xml"

/-- The route files discovered in the workspace directory listing. -/
def discovered (listing : List String) : List String :=
  listing.filter isRouteName

def commaConcat (l : List String) (acc : String) : String :=
  l.foldl (fun acc2 item => acc2 ++ item ++ ",") acc

/-- Mirrors the string built by the rewriter: append every item of the listing
containing ".rou.xml" followed by a comma, then strip commas at both ends. -/
def route_files_of (listing : List String) : String :=
  stripBoth ','
    (listing.foldl
      (fun acc item => if isRouteName item then acc ++ item ++ "," else acc) "")

/-- The Config Rewriter on the parsed configuration tree: set the attribute
"value" of every element of tag "route-files" to the joined route list. -/
def add_rou_to_default_sumocfg (listing : List String) (cfg : Element) : Element :=
  setAll "route-files" (route_files_of listing) cfg

/-! ## Artifact Merger (merge_parking_files) -/

/-- Mirrors the loop appending each top-level child of the second document's
root to the first document's root, then writing the first root out. -/
def merge_parking_files (side_parking parking_areas : Element) : Element :=
  .mk side_parking.tag side_parking.attrib
    (side_parking.children.append parking_areas.children)

/-! ## Argument vectors of the collaborator calls -/

def netconvert_options (filename : String) (lefthand : Bool) : List String :=
  let base := ["netconvert",
               "-c", DEFAULT_NETCONVERT,
               "--osm", filename,
               "-o", DEFAULT_NET_XML,
               "--ptstop-output", DEFAULT_PT_STOPS_XML,
               "--ptline-output", DEFAULT_PT_LINES,
               "--parking-output", DEFAULT_SIDE_PARKING_XML]
  if lefthand then base ++ ["--lefthand"] else base

def pt_flows_options : List String :=
  ["-n", DEFAULT_NET_XML,
   "-e", "86400",
   "-p", "600",
   "--random-begin",
   "--seed", "42",
   "--ptstops", DEFAULT_PT_STOPS_XML,
   "--ptlines", DEFAULT_PT_LINES,
   "-o", DEFAULT_PT_FLOWS,
   "--ignore-errors",
   "--vtype-prefix", "pt_",
   "--verbose"]

def parking_options (filename : String) : List String :=
  ["--osm", filename, "--net", DEFAULT_NET_XML, "--out", DEFAULT_PARKING_AREAS]

def rerouters_options : List String :=
  ["-a", DEFAULT_COMPLETE_PARKING_XML,
   "-n", DEFAULT_NET_XML,
   "--max-number-alternatives", "10",
   "--max-distance-alternatives", "1000.0",
   "--min-capacity-visibility-true", "50",
   "--max-distance-visibility-true", "1000.0",
   "-o", DEFAULT_PARKING_REROUTERS_XML]

def polyconvert_options (filename : String) : List String :=
  ["polyconvert", "--osm", filename, "--net", DEFAULT_NET_XML, "-o", DEFAULT_POLY_XML]

def taz_buildings_options (filename : String) : List String :=
  ["--osm", filename,
   "--net", DEFAULT_NET_XML,
   "--taz-output", DEFAULT_TAZ_OUTPUT_XML,
   "--od-output", DEFAULT_OD_OUTPUT_CSV,
   "--poly-output", DEFAULT_BUILDINGS_PREFIX]

def odmatrix_options : List String :=
  ["--taz-weights", DEFAULT_OD_OUTPUT_CSV,
   "--out", DEFAULT_ODMATRIX_AMITRAN_XML,
   "--density", "3000.0"]

def default_options : List String :=
  ["--conf", DEAFULT_GENERIC_AG_CONG,
   "--od-amitran", DEFAULT_ODMATRIX_AMITRAN_XML,
   "--out", DEAFULT_SPECIFIC_AG_CONG]

def activitygen_options : List String :=
  ["-c", DEAFULT_SPECIFIC_AG_CONG]

def sumo_options : List String :=
  ["sumo", "-c", DEFAULT_SUMOCFG]

/-! ## The orchestrator's event trace -/

structure Options where
  osm_file : String
  out_dir : String
  profiling : Bool
  left_hand_traffic : Bool

/-- os.path.basename on a POSIX path. -/
def basename (s : String) : String :=
  ⟨(s.data.reverse.takeWhile (fun d => !(d == '/'))).reverse⟩

inductive Event : Type where
  | makedirs (dir : String)
  | copy (src dst : String)
  | chdir (dir : String)
  | procCall (argv : List String) (status : Int)
  | libCall (modName : String) (argv : List String)
  | mergeCall (sideParking parkingAreas completeParking : String)
  | rewriteCall (cfgFile : String)

/-- The ordered sequence of filesystem actions and collaborator invocations
performed by main, line by line.  The status oracle records what exit status
each spawned process returns; the trace never branches on it, exactly as the
script never inspects the result of a spawned process. -/
def mainTrace (args : Options) (status : List String → Int) : List Event :=
  let osmBase := basename args.osm_file
  [Event.makedirs args.out_dir,
   Event.copy args.osm_file args.out_dir,
   Event.copy "defaults/activitygen.json" args.out_dir,
   Event.copy "defaults/basic.vType.xml" args.out_dir,
   Event.copy "defaults/duarouter.sumocfg" args.out_dir,
   Event.copy "defaults/osm.netccfg" args.out_dir,
   Event.copy "defaults/osm.sumocfg" args.out_dir,
   Event.chdir args.out_dir,
   Event.procCall (netconvert_options osmBase args.left_hand_traffic)
     (status (netconvert_options osmBase args.left_hand_traffic)),
   Event.libCall "ptlines2flows" pt_flows_options,
   Event.libCall "generateParkingAreasFromOSM" (parking_options osmBase),
   Event.mergeCall DEFAULT_SIDE_PARKING_XML DEFAULT_PARKING_AREAS DEFAULT_COMPLETE_PARKING_XML,
   Event.libCall "generateParkingAreaRerouters" rerouters_options,
   Event.procCall (polyconvert_options osmBase) (status (polyconvert_options osmBase)),
   Event.makedirs "buildings",
   Event.libCall "generateTAZBuildingsFromOSM" (taz_buildings_options osmBase),
   Event.libCall "generateAmitranFromTAZWeights" odmatrix_options,
   Event.libCall "generateDefaultsActivityGen" default_options,
   Event.libCall "activitygen" activitygen_options,
   Event.rewriteCall DEFAULT_SUMOCFG,
   Event.procCall sumo_options (status sumo_options)]

/-- Replace every recorded process exit status by the success status 0. -/
def eraseStatus : Event → Event
  | .procCall argv _ => .procCall argv 0
  | e => e

def Event.isCopy : Event → Bool
  | .copy _ _ => true
  | _ => false

def Event.isChdir : Event → Bool
  | .chdir _ => true
  | _ => false

inductive Stage : Type where
  | netconvert
  | ptlines2flows
  | parkingAreas
  | parkingMerge
  | parkingRerouters
  | polyconvert
  | tazBuildings
  | odMatrix
  | agDefaults
  | mobilityGen
  | configRewriter
  | sumo
deriving DecidableEq

/-- Which pipeline stage, when any, an event realises. -/
def stageOf : Event → Option Stage
  | .procCall ("netconvert" :: _) _ => some .netconvert
  | .procCall ("polyconvert" :: _) _ => some .polyconvert
  | .procCall ("sumo" :: _) _ => some .sumo
  | .procCall _ _ => none
  | .libCall "ptlines2flows" _ => some .ptlines2flows
  | .libCall "generateParkingAreasFromOSM" _ => some .parkingAreas
  | .libCall "generateParkingAreaRerouters" _ => some .parkingRerouters
  | .libCall "generateTAZBuildingsFromOSM" _ => some .tazBuildings
  | .libCall "generateAmitranFromTAZWeights" _ => some .odMatrix
  | .libCall "generateDefaultsActivityGen" _ => some .agDefaults
  | .libCall "activitygen" _ => some .mobilityGen
  | .libCall _ _ => none
  | .mergeCall _ _ _ => some .parkingMerge
  | .rewriteCall _ => some .configRewriter
  | _ => none

/-! ## Whole-program behaviour (SUMO_HOME gate and exit status) -/

inductive ExitKind : Type where
  | code (n : Nat)
  | message (msg : String)

structure RunResult where
  trace : List Event
  exit : ExitKind

def sumoHomeMessage : String := "please declare environment variable 'SUMO_HOME'"

/-- The process as a whole: if SUMO_HOME is absent from the environment it
exits at once with the fixed message and no stage runs; otherwise main runs
to the end and the process exits with status 0, whatever the spawned
processes returned. -/
def runProgram (env : List (String × String)) (args : Options)
    (status : List String → Int) : RunResult :=
  match List.lookup "SUMO_HOME" env with
  | some _ => { trace := mainTrace args status, exit := .code 0 }
  | none => { trace := [], exit := .message sumoHomeMessage }

/-- The twelve stage labels in the order the orchestrator realises them. -/
def pipelineStages : List Stage :=
  [.netconvert, .ptlines2flows, .parkingAreas, .parkingMerge, .parkingRerouters,
   .polyconvert, .tazBuildings, .odMatrix, .agDefaults, .mobilityGen,
   .configRewriter, .sumo]

/-! ## Concrete sample inputs -/

def sampleArgs : Options :=
  { osm_file := "map.osm", out_dir := "outdir", profiling := false,
    left_hand_traffic := false }

/-- A small configuration document with exactly one route-files element. -/
def sampleCfg : Element :=
  .mk "configuration" [("xmlns", "http://sumo.dlr.de/xsd/sumoConfiguration.xsd")]
    (.cons
      (.mk "input" []
        (.cons (.mk "net-file" [("value", "osm.net.xml")] .nil)
          (.cons (.mk "route-files" [("value", "old.rou.xml")] .nil) .nil)))
      (.cons (.mk "time" [("begin", "0")] .nil) .nil))

/-- A configuration document with no route-files element at all. -/
def sampleCfgNoRoute : Element :=
  .mk "configuration" []
    (.cons (.mk "input" []
      (.cons (.mk "net-file" [("value", "osm.net.xml")] .nil) .nil)) .nil)

/-! ## General lemmas about the embedding -/

theorem elementList_length_append :
    ∀ xs ys : ElementList, (xs.append ys).length = xs.length + ys.length
  | .nil, ys => by simp [ElementList.append, ElementList.length]
  | .cons e es, ys => by
    simp [ElementList.append, ElementList.length, elementList_length_append es ys]
    omega

theorem elementList_toList_append :
    ∀ xs ys : ElementList, (xs.append ys).toList = xs.toList ++ ys.toList
  | .nil, ys => by simp [ElementList.append, ElementList.toList]
  | .cons e es, ys => by
    simp [ElementList.append, ElementList.toList, elementList_toList_append es ys]

/-- C2: merging two parking documents keeps the first root's tag and
attributes and concatenates the top-level children of the two documents,
first document's children first, each block in its original order; in
particular the merged document has m + n top-level children. -/
theorem C2_merge_parking (a b : Element) :
    (merge_parking_files a b).tag = a.tag
      ∧ (merge_parking_files a b).attrib = a.attrib
      ∧ (merge_parking_files a b).children.toList
          = a.children.toList ++ b.children.toList
      ∧ (merge_parking_files a b).children.length
          = a.children.length + b.children.length := by
  refine ⟨rfl, rfl, ?_, ?_⟩
  · exact elementList_toList_append _ _
  · exact elementList_length_append _ _

/-- C3: the exit status a spawned process returns is recorded but never
branched on: the trace of a run under an arbitrary status oracle, statuses
erased, equals the trace of a run in which every process succeeds, and the
realised stage sequence is the same under any two oracles. -/
theorem C3_status_never_inspected (args : Options) (status : List String → Int) :
    (mainTrace args status).map eraseStatus = mainTrace args (fun argv => 0)
      ∧ (mainTrace args status).filterMap stageOf
          = (mainTrace args (fun argv => 0)).filterMap stageOf := by
  obtain ⟨osm, out, prof, lh⟩ := args
  cases lh <;> exact ⟨rfl, rfl⟩

/-- C4: every run realises exactly the ten pipeline stages in the order of
the stage table, each exactly once, followed by the Config Rewriter and then
the simulator invocation. -/
theorem C4_stage_order (args : Options) (status : List String → Int) :
    (mainTrace args status).filterMap stageOf = pipelineStages
      ∧ ∀ st : Stage, ((mainTrace args status).filterMap stageOf).count st = 1 := by
  obtain ⟨osm, out, prof, lh⟩ := args
  cases lh <;> exact ⟨rfl, fun st => by cases st <;> rfl⟩

/-- C6: the network-conversion argument vector contains the left-hand marker
exactly when the left-hand-traffic flag is set, and with the flag unset the
vector is the same with only that marker absent. -/
theorem C6_lefthand_flag (filename : String) (h : filename ≠ "--lefthand") :
    (∀ lefthand : Bool,
        ("--lefthand" ∈ netconvert_options filename lefthand) ↔ lefthand = true)
      ∧ netconvert_options filename true
          = netconvert_options filename false ++ ["--lefthand"] := by
  constructor
  · intro lefthand
    cases lefthand
    · constructor
      · intro hm
        exfalso
        simp only [netconvert_options, Bool.false_eq_true, if_false,
          DEFAULT_NETCONVERT, DEFAULT_NET_XML, DEFAULT_PT_STOPS_XML,
          DEFAULT_PT_LINES, DEFAULT_SIDE_PARKING_XML,
          List.mem_cons, List.not_mem_nil, or_false] at hm
        rcases hm with h1 | h1 | h1 | h1 | h1 | h1 | h1 | h1 | h1 | h1 | h1 | h1 | h1
        all_goals first
          | exact absurd h1 (by decide)
          | exact h h1.symm
      · intro h2
        exact absurd h2 (by decide)
    · constructor
      · intro _
        rfl
      · intro _
        simp [netconvert_options]
  · simp [netconvert_options]

theorem C6_witness :
    (("--lefthand" ∈ netconvert_options "map.osm" true) ↔ true = true)
      ∧ netconvert_options "map.osm" true
          = netconvert_options "map.osm" false ++ ["--lefthand"] :=
  ⟨(C6_lefthand_flag "map.osm" (by decide)).1 true,
   (C6_lefthand_flag "map.osm" (by decide)).2⟩

/-- C7: when SUMO_HOME is missing from the environment the process stops at
once with the fixed message and an empty trace, before any stage runs; when
it is present the whole pipeline runs and the process exits with status 0,
whatever exit statuses the spawned processes returned. -/
theorem C7_sumo_home_gate (env : List (String × String)) (args : Options)
    (status : List String → Int) :
    (List.lookup "SUMO_HOME" env = none →
        runProgram env args status = ⟨[], .message sumoHomeMessage⟩)
      ∧ (∀ v, List.lookup "SUMO_HOME" env = some v →
          (runProgram env args status).exit = .code 0
            ∧ (runProgram env args status).trace = mainTrace args status) := by
  constructor
  · intro h
    simp [runProgram, h]
  · intro v h
    simp [runProgram, h]

theorem C7_witness :
    runProgram [] sampleArgs (fun argv => 1) = ⟨[], .message sumoHomeMessage⟩
      ∧ (runProgram [("SUMO_HOME", "/opt/sumo")] sampleArgs (fun argv => 1)).exit
          = .code 0 :=
  ⟨(C7_sumo_home_gate [] sampleArgs (fun argv => 1)).1 rfl,
   ((C7_sumo_home_gate [("SUMO_HOME", "/opt/sumo")] sampleArgs (fun argv => 1)).2
      "/opt/sumo" rfl).1⟩

/-- C9: the first eight events of every run are the creation of the output
directory, the copy of the map file, the five copies of templates addressed
by the fixed relative path defaults/, and only then the change of working
directory; no copy or change of working directory happens later. -/
theorem C9_copies_before_chdir (args : Options) (status : List String → Int) :
    (mainTrace args status).take 8 =
        [Event.makedirs args.out_dir,
         Event.copy args.osm_file args.out_dir,
         Event.copy "defaults/activitygen.json" args.out_dir,
         Event.copy "defaults/basic.vType.xml" args.out_dir,
         Event.copy "defaults/duarouter.sumocfg" args.out_dir,
         Event.copy "defaults/osm.netccfg" args.out_dir,
         Event.copy "defaults/osm.sumocfg" args.out_dir,
         Event.chdir args.out_dir]
      ∧ ((mainTrace args status).drop 8).all
          (fun e => !(e.isCopy) && !(e.isChdir)) = true :=
  ⟨rfl, rfl⟩

theorem lookupKey_dictSet (k v : String) :
    ∀ a : List (String × String), lookupKey k (dictSet a k v) = some v
  | [] => by simp [dictSet, lookupKey]
  | (k2, v2) :: rest => by
    rw [dictSet]
    cases hb : (k2 == k)
    · simp only [hb, Bool.false_eq_true, if_false, lookupKey,
        lookupKey_dictSet k v rest]
    · simp [hb, lookupKey]

theorem eraseKey_dictSet (k v : String) :
    ∀ a : List (String × String), eraseKey k (dictSet a k v) = eraseKey k a
  | [] => by simp [dictSet, eraseKey]
  | (k2, v2) :: rest => by
    rw [dictSet]
    cases hb : (k2 == k)
    · simp only [hb, Bool.false_eq_true, if_false, eraseKey, List.filter,
        Bool.not_eq_true']
      rw [show (List.filter (fun p => !(p.1 == k)) (dictSet rest k v))
            = eraseKey k (dictSet rest k v) from rfl,
          eraseKey_dictSet k v rest]
      rfl
    · have hk : k2 = k := by simpa using hb
      simp [hb, eraseKey, List.filter, hk]

mutual

theorem setAll_id (tag v : String) :
    ∀ e : Element, countTag tag e = 0 → setAll tag v e = e
  | .mk t a c, h => by
    rw [countTag] at h
    cases hb : (t == tag) with
    | true => rw [hb] at h; simp at h
    | false =>
      rw [hb] at h
      simp only [Bool.false_eq_true, if_false, Nat.zero_add] at h
      rw [setAll, hb, setAllL_id tag v c h]
      simp

theorem setAllL_id (tag v : String) :
    ∀ es : ElementList, countTagL tag es = 0 → setAllL tag v es = es
  | .nil, _ => rfl
  | .cons e es, h => by
    rw [countTagL] at h
    have h1 : countTag tag e = 0 := by omega
    have h2 : countTagL tag es = 0 := by omega
    rw [setAllL, setAll_id tag v e h1, setAllL_id tag v es h2]

end

mutual

theorem nodes_setAll (tag v : String) :
    ∀ e : Element, nodes (setAll tag v e) = (nodes e).map (stepFn tag v)
  | .mk t a c => by
    rw [setAll, nodes, nodes, List.map_cons, nodesL_setAllL tag v c]
    cases hb : (t == tag) <;> simp [stepFn, hb]

theorem nodesL_setAllL (tag v : String) :
    ∀ es : ElementList, nodesL (setAllL tag v es) = (nodesL es).map (stepFn tag v)
  | .nil => rfl
  | .cons e es => by
    rw [setAllL, nodesL, nodesL, nodes_setAll tag v e, nodesL_setAllL tag v es,
      List.map_append]

end

mutual

theorem countTag_countP (tag : String) :
    ∀ e : Element, countTag tag e = (nodes e).countP (fun p => p.1 == tag)
  | .mk t a c => by
    rw [countTag, nodes, List.countP_cons, countTagL_countP tag c]
    cases hb : (t == tag) <;> simp [hb] <;> omega

theorem countTagL_countP (tag : String) :
    ∀ es : ElementList, countTagL tag es = (nodesL es).countP (fun p => p.1 == tag)
  | .nil => rfl
  | .cons e es => by
    rw [countTagL, nodesL, List.countP_append, countTag_countP tag e,
      countTagL_countP tag es]

end

theorem countP_zip_le {α : Type} [DecidableEq α] (f : α → α) (p : α → Bool)
    (hf : ∀ a, p a = false → f a = a) :
    ∀ l : List α,
      ((l.zip (l.map f)).countP (fun q => !(decide (q.1 = q.2)))) ≤ l.countP p
  | [] => Nat.le_refl 0
  | a :: l => by
    have ih := countP_zip_le f p hf l
    rw [List.map_cons, List.zip_cons_cons, List.countP_cons, List.countP_cons]
    cases hp : p a
    · rw [hf a hp]
      exact Nat.add_le_add ih (by simp)
    · exact Nat.add_le_add ih (by split <;> simp)

mutual

theorem allTagValue_setAll (tag v : String) :
    ∀ e : Element, allTagValue tag v (setAll tag v e) = true
  | .mk t a c => by
    rw [setAll, allTagValue, allTagValueL_setAllL tag v c]
    cases hb : (t == tag)
    · simp [hb]
    · simp [hb, lookupKey_dictSet]

theorem allTagValueL_setAllL (tag v : String) :
    ∀ es : ElementList, allTagValueL tag v (setAllL tag v es) = true
  | .nil => rfl
  | .cons e es => by
    rw [setAllL, allTagValueL, allTagValue_setAll tag v e,
      allTagValueL_setAllL tag v es]
    rfl

end

mutual

theorem othersPreserved_setAll (tag v : String) :
    ∀ e : Element, othersPreserved tag e (setAll tag v e) = true
  | .mk t a c => by
    rw [setAll, othersPreserved, othersPreservedL_setAllL tag v c]
    cases hb : (t == tag)
    · simp [hb]
    · simp [hb, eraseKey_dictSet]

theorem othersPreservedL_setAllL (tag v : String) :
    ∀ es : ElementList, othersPreservedL tag es (setAllL tag v es) = true
  | .nil => rfl
  | .cons e es => by
    rw [setAllL, othersPreservedL, othersPreserved_setAll tag v e,
      othersPreservedL_setAllL tag v es]
    rfl

end

theorem foldl_guard_filter (pred : String → Bool) :
    ∀ (l : List String) (acc : String),
      l.foldl (fun acc2 item => if pred item then acc2 ++ item ++ "," else acc2) acc
        = (l.filter pred).foldl (fun acc2 item => acc2 ++ item ++ ",") acc
  | [], acc => rfl
  | item :: l, acc => by
    rw [List.foldl_cons, List.filter_cons]
    cases hp : pred item
    · simp only [hp, Bool.false_eq_true, if_false]
      exact foldl_guard_filter pred l acc
    · simp only [hp, if_true, List.foldl_cons]
      exact foldl_guard_filter pred l (acc ++ item ++ ",")

theorem route_files_of_discovered (listing : List String) :
    route_files_of listing = stripBoth ',' (commaConcat (discovered listing) "") := by
  rw [route_files_of, discovered, commaConcat, foldl_guard_filter]

/-- C1: for a workspace whose route files are exactly a.rou.xml and b.rou.xml
(in either directory-listing order), the rewriter computes one of the two
comma-joined permutations, with no trailing comma and no duplicate, writes it
as the value of every route-files element, and changes nothing else in the
document: shape, tags, and all attributes outside the value key of
route-files elements are preserved. -/
theorem C1_two_route_files (listing : List String) (cfg : Element)
    (h : discovered listing = ["a.rou.xml", "b.rou.xml"]
        ∨ discovered listing = ["b.rou.xml", "a.rou.xml"]) :
    (route_files_of listing = "a.rou.xml,b.rou.xml"
        ∨ route_files_of listing = "b.rou.xml,a.rou.xml")
      ∧ allTagValue "route-files" (route_files_of listing)
          (add_rou_to_default_sumocfg listing cfg) = true
      ∧ othersPreserved "route-files" cfg
          (add_rou_to_default_sumocfg listing cfg) = true := by
  refine ⟨?_, allTagValue_setAll "route-files" (route_files_of listing) cfg,
    othersPreserved_setAll "route-files" (route_files_of listing) cfg⟩
  rcases h with h | h
  · left
    rw [route_files_of_discovered, h]
    decide
  · right
    rw [route_files_of_discovered, h]
    decide

theorem C1_witness :
    (route_files_of ["osm.net.xml", "b.rou.xml", "a.rou.xml"] = "a.rou.xml,b.rou.xml"
        ∨ route_files_of ["osm.net.xml", "b.rou.xml", "a.rou.xml"] = "b.rou.xml,a.rou.xml")
      ∧ allTagValue "route-files"
          (route_files_of ["osm.net.xml", "b.rou.xml", "a.rou.xml"])
          (add_rou_to_default_sumocfg ["osm.net.xml", "b.rou.xml", "a.rou.xml"] sampleCfg)
          = true
      ∧ othersPreserved "route-files" sampleCfg
          (add_rou_to_default_sumocfg ["osm.net.xml", "b.rou.xml", "a.rou.xml"] sampleCfg)
          = true :=
  C1_two_route_files ["osm.net.xml", "b.rou.xml", "a.rou.xml"] sampleCfg
    (Or.inr (by decide))

/-- C5: against a document with no route-files element the rewriter returns
the document unchanged and does not fail; against a document with exactly one
route-files element it changes at most that one node, the changed node gets
the computed route list as its value, and everything outside the value key of
route-files elements is untouched. -/
theorem C5_frame_effect (listing : List String) (cfg : Element) :
    (countTag "route-files" cfg = 0 →
        add_rou_to_default_sumocfg listing cfg = cfg)
      ∧ (countTag "route-files" cfg = 1 →
          countDiff cfg (add_rou_to_default_sumocfg listing cfg) ≤ 1
            ∧ allTagValue "route-files" (route_files_of listing)
                (add_rou_to_default_sumocfg listing cfg) = true
            ∧ othersPreserved "route-files" cfg
                (add_rou_to_default_sumocfg listing cfg) = true) := by
  constructor
  · intro h
    exact setAll_id "route-files" (route_files_of listing) cfg h
  · intro h
    refine ⟨?_, allTagValue_setAll "route-files" (route_files_of listing) cfg,
      othersPreserved_setAll "route-files" (route_files_of listing) cfg⟩
    have hle : countDiff cfg (add_rou_to_default_sumocfg listing cfg)
        ≤ countTag "route-files" cfg := by
      rw [add_rou_to_default_sumocfg, countDiff, nodes_setAll, countTag_countP]
      exact countP_zip_le (stepFn "route-files" (route_files_of listing))
        (fun p => p.1 == "route-files")
        (fun q hq => by simp [stepFn, hq]) (nodes cfg)
    rw [h] at hle
    exact hle

theorem C5_witness :
    add_rou_to_default_sumocfg [] sampleCfgNoRoute = sampleCfgNoRoute
      ∧ countDiff sampleCfg (add_rou_to_default_sumocfg [] sampleCfg) ≤ 1 :=
  ⟨(C5_frame_effect [] sampleCfgNoRoute).1 (by decide),
   ((C5_frame_effect [] sampleCfg).2 (by decide)).1⟩

/-- C8: when no name in the listing contains .rou.xml, the computed route
list is the empty string and the rewriter sets the value of every route-files
element to the empty string, without failing. -/
theorem C8_empty_listing (listing : List String) (cfg : Element)
    (h : ∀ item ∈ listing, isRouteName item = false) :
    route_files_of listing = ""
      ∧ allTagValue "route-files" ""
          (add_rou_to_default_sumocfg listing cfg) = true
      ∧ othersPreserved "route-files" cfg
          (add_rou_to_default_sumocfg listing cfg) = true := by
  have hd : discovered listing = [] := by
    rw [discovered, List.filter_eq_nil_iff]
    intro a ha
    simp [h a ha]
  have hrf : route_files_of listing = "" := by
    rw [route_files_of_discovered, hd]
    rfl
  refine ⟨hrf, ?_, othersPreserved_setAll "route-files" (route_files_of listing) cfg⟩
  rw [add_rou_to_default_sumocfg, ← hrf]
  exact allTagValue_setAll "route-files" (route_files_of listing) cfg

theorem C8_witness :
    route_files_of ["osm.net.xml", "osm_polygons.add.xml"] = ""
      ∧ allTagValue "route-files" ""
          (add_rou_to_default_sumocfg ["osm.net.xml", "osm_polygons.add.xml"] sampleCfg)
          = true :=
  ⟨(C8_empty_listing ["osm.net.xml", "osm_polygons.add.xml"] sampleCfg (by decide)).1,
   (C8_empty_listing ["osm.net.xml", "osm_polygons.add.xml"] sampleCfg (by decide)).2.1⟩

/-- C10: route discovery matches .rou.xml anywhere inside a name, not only at
the end (x.rou.xml.bak matches although .rou.xml is not its suffix, so any
listing containing it discovers it), the stage-2 public-transport flows file
osm_pt.rou.xml matches too and is discovered whenever it is in the listing,
and the rewriter's joined string is built exactly from the discovered list.
-/
theorem C10_substring_discovery :
    hasSubstr "x.rou.xml.bak" ".rou.xml" = true
      ∧ tailMatch "x.rou.xml.bak" ".rou.xml" = false
      ∧ (∀ listing : List String, "x.rou.xml.bak" ∈ listing →
          "x.rou.xml.bak" ∈ discovered listing)
      ∧ isRouteName DEFAULT_PT_FLOWS = true
      ∧ (∀ listing : List String, DEFAULT_PT_FLOWS ∈ listing →
          DEFAULT_PT_FLOWS ∈ discovered listing)
      ∧ (∀ listing : List String,
          route_files_of listing
            = stripBoth ',' (commaConcat (discovered listing) "")) := by
  refine ⟨by decide, by decide, ?_, by decide, ?_, ?_⟩
  · intro listing hl
    rw [discovered]
    exact List.mem_filter.mpr ⟨hl, by decide⟩
  · intro listing hl
    rw [discovered]
    exact List.mem_filter.mpr ⟨hl, by decide⟩
  · intro listing
    exact route_files_of_discovered listing

theorem C10_witness :
    "x.rou.xml.bak" ∈ discovered ["x.rou.xml.bak", "osm_pt.rou.xml"]
      ∧ DEFAULT_PT_FLOWS ∈ discovered ["x.rou.xml.bak", "osm_pt.rou.xml"] :=
  ⟨C10_substring_discovery.2.2.1 ["x.rou.xml.bak", "osm_pt.rou.xml"] (by decide),
   C10_substring_discovery.2.2.2.2.1 ["x.rou.xml.bak", "osm_pt.rou.xml"] (by decide)⟩
